import Mathlib

/-!
Verification of the wellness-journal core (entry store, statistics engine,
streak calculator, habit aggregator, free-block interval engine).

Shallow embedding conventions:
- calendar dates and timestamps are modelled as integers (day numbers /
  abstract instants); the SQL expression date(now, -N days) becomes
  today - N;
- SQL REAL / JS number fields are modelled as rationals;
- nullable SQL columns and TS null/undefined fields are Option;
- the daily_entries table is a list of rows; the UNIQUE(date) constraint
  appears as a hypothesis where a theorem needs it;
- JSON serialisation of the whoop/calendar snapshot blobs is modelled as
  the identity on the structured value (JSON round-trip of plain data);
- the CHECK(energy_rating BETWEEN 1 AND 10) constraint makes the morning
  insert fallible, hence saveMorningEntry returns Option.
-/

-- ===========================================================================
-- Data model (src types: Whoop, Calendar, journal entry types)
-- ===========================================================================

/-- Whoop recovery sub-record. -/
structure WhoopRecovery where
  score : ℚ
  hrvRmssd : ℚ
  restingHeartRate : ℚ
  sleepPerformance : ℚ
  userId : Int
  createdAt : String
deriving DecidableEq

/-- Whoop sleep stage minutes. -/
structure WhoopSleepStages where
  rem : ℚ
  deep : ℚ
  light : ℚ
  awake : ℚ
deriving DecidableEq

/-- Whoop sleep sub-record. -/
structure WhoopSleep where
  id : Int
  qualityDuration : ℚ
  totalInBedDuration : ℚ
  efficiency : ℚ
  consistencyScore : ℚ
  stages : WhoopSleepStages
  startTime : String
  endTime : String
deriving DecidableEq

/-- Whoop workout sub-record. -/
structure WhoopWorkout where
  id : Int
  sport : String
  startTime : String
  endTime : String
  strain : ℚ
  averageHeartRate : ℚ
  calories : ℚ
deriving DecidableEq

/-- Whoop strain sub-record. -/
structure WhoopStrain where
  score : ℚ
  averageHeartRate : ℚ
  maxHeartRate : ℚ
  calories : ℚ
  workouts : List WhoopWorkout
deriving DecidableEq

/-- Whoop daily snapshot; each sub-record independently nullable. -/
structure WhoopDailyData where
  date : Int
  recovery : Option WhoopRecovery
  sleep : Option WhoopSleep
  strain : Option WhoopStrain
deriving DecidableEq

/-- Calendar event category. -/
inductive EventType where
  | meeting
  | focus
  | personal
  | other
deriving DecidableEq

/-- Calendar event; start/end instants in minutes. -/
structure CalendarEvent where
  id : String
  title : String
  startTime : Int
  endTime : Int
  duration : Int
  type : EventType
  location : Option String
  description : Option String
deriving DecidableEq

/-- Derived calendar summary. -/
structure CalendarSummary where
  totalEvents : Int
  meetingMinutes : Int
  focusBlocks : Int
  longestFreeBlock : Int
deriving DecidableEq

/-- Calendar snapshot for a day. -/
structure CalendarDay where
  date : Int
  events : List CalendarEvent
  summary : CalendarSummary
deriving DecidableEq

/-- Mood enumeration. -/
inductive Mood where
  | calm_focused
  | energized
  | tired_okay
  | anxious_stressed
  | low_flat
deriving DecidableEq

/-- Movement intention enumeration. -/
inductive MovementIntention where
  | rest
  | active_recovery
  | light_workout
  | full_intensity
deriving DecidableEq

/-- Priority-completion enumeration; the middle source value is a reserved
word in Lean, hence the partDone constructor name. -/
inductive PriorityCompletion where
  | yes
  | partDone
  | no
deriving DecidableEq

/-- Morning entry as captured by the morning routine. -/
structure MorningEntry where
  date : Int
  timestamp : Int
  whoopData : Option WhoopDailyData
  calendarData : Option CalendarDay
  energyRating : ℚ
  mood : Mood
  sleepReflection : String
  yesterdayWin : String
  yesterdayChallenge : String
  oneThing : String
  movementIntention : MovementIntention
  successMetric : String
  patterns : Option String
  dynamicQuestions : Option (List String)
deriving DecidableEq

/-- Evening entry as captured by the evening routine. -/
structure EveningEntry where
  date : Int
  timestamp : Int
  priorityCompleted : PriorityCompletion
  eveningReflection : String
  gratitude : List String
  tomorrowRemember : String
deriving DecidableEq

/-- Full daily entry: the morning fields plus an optional evening sub-record. -/
structure DailyEntry where
  date : Int
  timestamp : Int
  whoopData : Option WhoopDailyData
  calendarData : Option CalendarDay
  energyRating : ℚ
  mood : Mood
  sleepReflection : String
  yesterdayWin : String
  yesterdayChallenge : String
  oneThing : String
  movementIntention : MovementIntention
  successMetric : String
  patterns : Option String
  dynamicQuestions : Option (List String)
  evening : Option EveningEntry
deriving DecidableEq

/-- Trend classification. -/
inductive Trend where
  | up
  | down
  | stable
deriving DecidableEq

/-- Derived historical statistics. -/
structure HistoricalStats where
  avgRecovery : ℚ
  avgHrv : ℚ
  avgSleep : ℚ
  avgEnergy : ℚ
  recoveryTrend : Trend
  hrvTrend : Trend
  sleepTrend : Trend
  daysTracked : Nat
deriving DecidableEq

-- ===========================================================================
-- The daily_entries table (db/sqlite.ts)
-- ===========================================================================

/-- One row of the daily_entries table. Every column except date and the
timestamps is nullable, exactly as in the CREATE TABLE statement. -/
structure Row where
  date : Int
  created_at : Int
  updated_at : Int
  whoop_data : Option WhoopDailyData
  calendar_data : Option CalendarDay
  recovery_score : Option ℚ
  hrv : Option ℚ
  resting_hr : Option ℚ
  sleep_quality_minutes : Option ℚ
  sleep_efficiency : Option ℚ
  strain_score : Option ℚ
  energy_rating : Option ℚ
  mood : Option Mood
  sleep_reflection : Option String
  yesterday_win : Option String
  yesterday_challenge : Option String
  one_thing : Option String
  movement_intention : Option MovementIntention
  success_metric : Option String
  patterns : Option String
  dynamic_questions : Option (List String)
  priority_completed : Option PriorityCompletion
  evening_reflection : Option String
  gratitude : Option (List String)
  tomorrow_remember : Option String
deriving DecidableEq

/-- The daily_entries table as a list of rows. -/
abbrev Store : Type := List Row

/-- Fresh row produced by the INSERT branch of saveMorningEntry; created_at
and updated_at default to datetime(now), the evening columns stay NULL, and
the extracted scalar columns are derived from the whoop snapshot with the
optional chains of the source (entry.whoopData?.recovery?.score etc.). -/
def newRowFromMorning (now : Int) (e : MorningEntry) : Row :=
  { date := e.date
    created_at := now
    updated_at := now
    whoop_data := e.whoopData
    calendar_data := e.calendarData
    recovery_score := (e.whoopData.bind (fun w => w.recovery)).map (fun r => r.score)
    hrv := (e.whoopData.bind (fun w => w.recovery)).map (fun r => r.hrvRmssd)
    resting_hr := (e.whoopData.bind (fun w => w.recovery)).map (fun r => r.restingHeartRate)
    sleep_quality_minutes := (e.whoopData.bind (fun w => w.sleep)).map (fun s => s.qualityDuration)
    sleep_efficiency := (e.whoopData.bind (fun w => w.sleep)).map (fun s => s.efficiency)
    strain_score := (e.whoopData.bind (fun w => w.strain)).map (fun s => s.score)
    energy_rating := some e.energyRating
    mood := some e.mood
    sleep_reflection := some e.sleepReflection
    yesterday_win := some e.yesterdayWin
    yesterday_challenge := some e.yesterdayChallenge
    one_thing := some e.oneThing
    movement_intention := some e.movementIntention
    success_metric := some e.successMetric
    patterns := e.patterns
    dynamic_questions := e.dynamicQuestions
    priority_completed := none
    evening_reflection := none
    gratitude := none
    tomorrow_remember := none }

/-- ON CONFLICT(date) DO UPDATE branch of saveMorningEntry: overwrites every
morning-owned column and updated_at, leaves created_at and the four evening
columns untouched. -/
def morningUpdate (now : Int) (e : MorningEntry) (r : Row) : Row :=
  { r with
    updated_at := now
    whoop_data := e.whoopData
    calendar_data := e.calendarData
    recovery_score := (e.whoopData.bind (fun w => w.recovery)).map (fun x => x.score)
    hrv := (e.whoopData.bind (fun w => w.recovery)).map (fun x => x.hrvRmssd)
    resting_hr := (e.whoopData.bind (fun w => w.recovery)).map (fun x => x.restingHeartRate)
    sleep_quality_minutes := (e.whoopData.bind (fun w => w.sleep)).map (fun s => s.qualityDuration)
    sleep_efficiency := (e.whoopData.bind (fun w => w.sleep)).map (fun s => s.efficiency)
    strain_score := (e.whoopData.bind (fun w => w.strain)).map (fun s => s.score)
    energy_rating := some e.energyRating
    mood := some e.mood
    sleep_reflection := some e.sleepReflection
    yesterday_win := some e.yesterdayWin
    yesterday_challenge := some e.yesterdayChallenge
    one_thing := some e.oneThing
    movement_intention := some e.movementIntention
    success_metric := some e.successMetric
    patterns := e.patterns
    dynamic_questions := e.dynamicQuestions }

/-- saveMorningEntry: INSERT ... ON CONFLICT(date) DO UPDATE on the
daily_entries table. Returns none when the CHECK(energy_rating BETWEEN 1
AND 10) column constraint rejects the write. -/
def saveMorningEntry (now : Int) (e : MorningEntry) (s : Store) : Option Store :=
  if 1 ≤ e.energyRating ∧ e.energyRating ≤ 10 then
    if s.any (fun r => r.date == e.date) then
      some (s.map (fun r => if r.date = e.date then morningUpdate now e r else r))
    else
      some (s ++ [newRowFromMorning now e])
  else
    none

/-- saveEveningEntry: UPDATE daily_entries SET priority_completed,
evening_reflection, gratitude, tomorrow_remember, updated_at WHERE date = ?.
An UPDATE matching no row is a silent no-op. -/
def saveEveningEntry (now : Int) (e : EveningEntry) (s : Store) : Store :=
  s.map (fun r =>
    if r.date = e.date then
      { r with
        priority_completed := some e.priorityCompleted
        evening_reflection := some e.eveningReflection
        gratitude := some e.gratitude
        tomorrow_remember := some e.tomorrowRemember
        updated_at := now }
    else r)

/-- rowToDailyEntry: converts a row back to a DailyEntry. The untyped casts
of the source (row.mood as ..., row.sleep_reflection as string) are modelled
with getD defaults, which only differ from the cast on column states the
write paths never produce; gratitude defaults to [] exactly as in the source.
The evening sub-record is materialised iff priority_completed is non-null,
with its timestamp taken from updated_at. -/
def rowToDailyEntry (row : Row) : DailyEntry :=
  { date := row.date
    timestamp := row.created_at
    whoopData := row.whoop_data
    calendarData := row.calendar_data
    energyRating := row.energy_rating.getD 0
    mood := row.mood.getD Mood.calm_focused
    sleepReflection := row.sleep_reflection.getD ""
    yesterdayWin := row.yesterday_win.getD ""
    yesterdayChallenge := row.yesterday_challenge.getD ""
    oneThing := row.one_thing.getD ""
    movementIntention := row.movement_intention.getD MovementIntention.rest
    successMetric := row.success_metric.getD ""
    patterns := row.patterns
    dynamicQuestions := row.dynamic_questions
    evening :=
      match row.priority_completed with
      | none => none
      | some pc =>
        some
          { date := row.date
            timestamp := row.updated_at
            priorityCompleted := pc
            eveningReflection := row.evening_reflection.getD ""
            gratitude := row.gratitude.getD []
            tomorrowRemember := row.tomorrow_remember.getD "" } }

/-- getDailyEntry: SELECT * FROM daily_entries WHERE date = ?. -/
def getDailyEntry (s : Store) (date : Int) : Option DailyEntry :=
  (s.find? (fun r => r.date == date)).map rowToDailyEntry

/-- Error surfaced by the evening routine when no morning entry exists. -/
inductive RoutineError where
  | notFound
deriving DecidableEq

/-- Answers collected by the evening prompts. -/
structure EveningAnswers where
  priorityCompleted : PriorityCompletion
  eveningReflection : String
  gratitude1 : String
  gratitude2 : String
  gratitude3 : String
  tomorrowRemember : String

/-- runEveningRoutine (commands/morning.ts sibling): precondition-gated on a
morning entry existing for today; bails out with the no-morning-entry message
(modelled as a notFound error) without touching the store, keeps the existing
entry when an evening record exists and the user declines to overwrite, and
otherwise builds the EveningEntry from the answers (gratitude entries
filtered through Boolean, i.e. dropping empty strings) and saves it.
Habit logging and console output are outside the entry store and omitted. -/
def runEveningRoutine (now today : Int) (overwrite : Bool) (ans : EveningAnswers)
    (s : Store) : Except RoutineError Store :=
  match getDailyEntry s today with
  | none => Except.error RoutineError.notFound
  | some entry =>
    if entry.evening.isSome && !overwrite then
      Except.ok s
    else
      Except.ok (saveEveningEntry now
        { date := today
          timestamp := now
          priorityCompleted := ans.priorityCompleted
          eveningReflection := ans.eveningReflection
          gratitude := [ans.gratitude1, ans.gratitude2, ans.gratitude3].filter
            (fun g => g != "")
          tomorrowRemember := ans.tomorrowRemember } s)

-- ===========================================================================
-- Helper lemmas about the store
-- ===========================================================================

/-- If getDailyEntry finds nothing for a date, no row has that date. -/
lemma no_row_of_getDailyEntry_none {s : Store} {d : Int}
    (h : getDailyEntry s d = none) : ∀ r ∈ s, r.date ≠ d := by
  intro r hr hd
  unfold getDailyEntry at h
  cases hfind : s.find? (fun r => r.date == d) with
  | some v => rw [hfind] at h; simp at h
  | none =>
    rw [List.find?_eq_none] at hfind
    have := hfind r hr
    simp [hd] at this

/-- Updating morning columns, or evening columns, never changes the date. -/
lemma morningUpdate_date (now : Int) (e : MorningEntry) (r : Row) :
    (morningUpdate now e r).date = r.date := rfl

/-- In a list where exactly one element satisfies p, two members satisfying p
are equal. -/
lemma countP_one_unique {α : Type} (p : α → Bool) :
    ∀ {l : List α}, l.countP p = 1 →
      ∀ {a b : α}, a ∈ l → b ∈ l → p a = true → p b = true → a = b := by
  intro l
  induction l with
  | nil => intro _ a b ha; cases ha
  | cons x xs ih =>
    intro hcount a b ha hb hpa hpb
    have hcx := List.countP_cons p x xs
    by_cases hx : p x = true
    · rw [hcx] at hcount
      simp [hx] at hcount
      rcases List.mem_cons.mp ha with ha1 | ha2
      · rcases List.mem_cons.mp hb with hb1 | hb2
        · rw [ha1, hb1]
        · exact absurd (hcount b hb2) (by simp [hpb])
      · exact absurd (hcount a ha2) (by simp [hpa])
    · have hxs1 : xs.countP p = 1 := by
        rw [hcx] at hcount
        simp [hx] at hcount
        exact hcount
      rcases List.mem_cons.mp ha with ha1 | ha2
      · exact absurd (ha1 ▸ hpa) hx
      · rcases List.mem_cons.mp hb with hb1 | hb2
        · exact absurd (hb1 ▸ hpb) hx
        · exact ih hxs1 ha2 hb2 hpa hpb

/-- C1: on a date with no existing DailyEntry, the evening routine surfaces
NotFound to the caller and the low-level evening UPDATE never creates an
entry: the store is unchanged and getDailyEntry still returns none. -/
theorem upsertEvening_notFound_never_creates
    (s : Store) (today : Int) (h : getDailyEntry s today = none)
    (now now2 : Int) (overwrite : Bool) (ans : EveningAnswers) (ev : EveningEntry)
    (hev : ev.date = today) :
    runEveningRoutine now today overwrite ans s = Except.error RoutineError.notFound ∧
    saveEveningEntry now2 ev s = s ∧
    getDailyEntry (saveEveningEntry now2 ev s) today = none := by
  have hnorow := no_row_of_getDailyEntry_none h
  have hsave : saveEveningEntry now2 ev s = s := by
    unfold saveEveningEntry
    have hcongr : ∀ r ∈ s,
        (if r.date = ev.date then
          { r with
            priority_completed := some ev.priorityCompleted
            evening_reflection := some ev.eveningReflection
            gratitude := some ev.gratitude
            tomorrow_remember := some ev.tomorrowRemember
            updated_at := now2 }
        else r) = r := by
      intro r hr
      have : r.date ≠ ev.date := by rw [hev]; exact hnorow r hr
      simp [this]
    rw [List.map_congr_left hcongr]
    simp
  refine ⟨?_, hsave, ?_⟩
  · unfold runEveningRoutine
    rw [h]
  · rw [hsave]; exact h

/-- Witness for C1: the empty store and date 0. -/
theorem upsertEvening_notFound_never_creates_witness :
    getDailyEntry ([] : Store) 0 = none ∧
    (runEveningRoutine 1 0 false
        ⟨PriorityCompletion.yes, "r", "g1", "g2", "g3", "t"⟩ [] =
      Except.error RoutineError.notFound ∧
    saveEveningEntry 2 ⟨0, 1, PriorityCompletion.yes, "r", ["g1"], "t"⟩ [] = [] ∧
    getDailyEntry
      (saveEveningEntry 2 ⟨0, 1, PriorityCompletion.yes, "r", ["g1"], "t"⟩ []) 0 =
      none) :=
  ⟨rfl, upsertEvening_notFound_never_creates [] 0 rfl 1 2 false
    ⟨PriorityCompletion.yes, "r", "g1", "g2", "g3", "t"⟩
    ⟨0, 1, PriorityCompletion.yes, "r", ["g1"], "t"⟩ rfl⟩

/-- C2: a second morning upsert for a date that already has an entry with an
evening sub-record overwrites every morning-owned column with the new values,
preserves the four evening columns and created_at, and leaves exactly one
row for that date. -/
theorem upsertMorning_overwrites_preserving_evening
    (now : Int) (e : MorningEntry) (s : Store) (r₀ : Row)
    (hE : 1 ≤ e.energyRating ∧ e.energyRating ≤ 10)
    (hmem : r₀ ∈ s) (hdate : r₀.date = e.date)
    (_hEv : r₀.priority_completed.isSome = true)
    (huniq : s.countP (fun r => r.date == e.date) = 1) :
    ∃ s', saveMorningEntry now e s = some s' ∧
      s'.countP (fun r => r.date == e.date) = 1 ∧
      ∀ r' ∈ s', r'.date = e.date →
        r'.created_at = r₀.created_at ∧
        r'.priority_completed = r₀.priority_completed ∧
        r'.evening_reflection = r₀.evening_reflection ∧
        r'.gratitude = r₀.gratitude ∧
        r'.tomorrow_remember = r₀.tomorrow_remember ∧
        r'.whoop_data = e.whoopData ∧
        r'.calendar_data = e.calendarData ∧
        r'.recovery_score = (e.whoopData.bind (fun w => w.recovery)).map (fun x => x.score) ∧
        r'.hrv = (e.whoopData.bind (fun w => w.recovery)).map (fun x => x.hrvRmssd) ∧
        r'.resting_hr = (e.whoopData.bind (fun w => w.recovery)).map (fun x => x.restingHeartRate) ∧
        r'.sleep_quality_minutes = (e.whoopData.bind (fun w => w.sleep)).map (fun x => x.qualityDuration) ∧
        r'.sleep_efficiency = (e.whoopData.bind (fun w => w.sleep)).map (fun x => x.efficiency) ∧
        r'.strain_score = (e.whoopData.bind (fun w => w.strain)).map (fun x => x.score) ∧
        r'.energy_rating = some e.energyRating ∧
        r'.mood = some e.mood ∧
        r'.sleep_reflection = some e.sleepReflection ∧
        r'.yesterday_win = some e.yesterdayWin ∧
        r'.yesterday_challenge = some e.yesterdayChallenge ∧
        r'.one_thing = some e.oneThing ∧
        r'.movement_intention = some e.movementIntention ∧
        r'.success_metric = some e.successMetric ∧
        r'.patterns = e.patterns ∧
        r'.dynamic_questions = e.dynamicQuestions := by
  have hany : s.any (fun r => r.date == e.date) = true :=
    List.any_eq_true.mpr ⟨r₀, hmem, by simp [hdate]⟩
  refine ⟨s.map (fun r => if r.date = e.date then morningUpdate now e r else r), ?_, ?_, ?_⟩
  · unfold saveMorningEntry
    rw [if_pos hE, if_pos hany]
  · rw [List.countP_map]
    have : ((fun r : Row => r.date == e.date) ∘
        (fun r => if r.date = e.date then morningUpdate now e r else r)) =
        (fun r : Row => r.date == e.date) := by
      funext r
      by_cases hc : r.date = e.date <;> simp [Function.comp, hc, morningUpdate_date]
    rw [this, huniq]
  · intro r' hr' hd'
    rcases List.mem_map.mp hr' with ⟨r, hr, hrr⟩
    by_cases hc : r.date = e.date
    · have hreq : r = r₀ :=
        countP_one_unique (fun x : Row => x.date == e.date) huniq hr hmem
          (by simp [hc]) (by simp [hdate])
      rw [if_pos hc] at hrr
      rw [← hrr, hreq]
      unfold morningUpdate
      exact ⟨rfl, rfl, rfl, rfl, rfl, rfl, rfl, rfl, rfl, rfl, rfl, rfl, rfl,
        rfl, rfl, rfl, rfl, rfl, rfl, rfl, rfl, rfl, rfl⟩
    · rw [if_neg hc] at hrr
      rw [← hrr] at hd'
      exact absurd hd' hc

-- ===========================================================================
-- Concrete example data shared by witnesses and counterexamples
-- ===========================================================================

/-- A row with every nullable column NULL and zero timestamps. -/
def baseRow (d : Int) : Row :=
  { date := d
    created_at := 0
    updated_at := 0
    whoop_data := none
    calendar_data := none
    recovery_score := none
    hrv := none
    resting_hr := none
    sleep_quality_minutes := none
    sleep_efficiency := none
    strain_score := none
    energy_rating := none
    mood := none
    sleep_reflection := none
    yesterday_win := none
    yesterday_challenge := none
    one_thing := none
    movement_intention := none
    success_metric := none
    patterns := none
    dynamic_questions := none
    priority_completed := none
    evening_reflection := none
    gratitude := none
    tomorrow_remember := none }

/-- A concrete morning entry for date 3 with caller timestamp 9. -/
def exampleMorning : MorningEntry :=
  { date := 3
    timestamp := 9
    whoopData := none
    calendarData := none
    energyRating := 5
    mood := Mood.energized
    sleepReflection := "slept fine"
    yesterdayWin := "w"
    yesterdayChallenge := "c"
    oneThing := "o"
    movementIntention := MovementIntention.rest
    successMetric := "m"
    patterns := none
    dynamicQuestions := none }

/-- A concrete stored row for date 3 that already has an evening sub-record. -/
def exampleEveningRow : Row :=
  { baseRow 3 with
    created_at := 5
    updated_at := 5
    priority_completed := some PriorityCompletion.yes
    evening_reflection := some "er"
    gratitude := some ["a"]
    tomorrow_remember := some "tr" }

/-- Witness for C2: re-upserting the morning entry for date 3 over a store
holding one row for date 3 with an evening sub-record. -/
theorem upsertMorning_overwrites_preserving_evening_witness :
    (1 ≤ exampleMorning.energyRating ∧ exampleMorning.energyRating ≤ 10) ∧
    exampleEveningRow ∈ ([exampleEveningRow] : Store) ∧
    exampleEveningRow.date = exampleMorning.date ∧
    exampleEveningRow.priority_completed.isSome = true ∧
    ([exampleEveningRow] : Store).countP (fun r => r.date == exampleMorning.date) = 1 ∧
    ∃ s', saveMorningEntry 7 exampleMorning [exampleEveningRow] = some s' ∧
      s'.countP (fun r => r.date == exampleMorning.date) = 1 ∧
      ∀ r' ∈ s', r'.date = exampleMorning.date →
        r'.created_at = exampleEveningRow.created_at ∧
        r'.priority_completed = exampleEveningRow.priority_completed ∧
        r'.evening_reflection = exampleEveningRow.evening_reflection ∧
        r'.gratitude = exampleEveningRow.gratitude ∧
        r'.tomorrow_remember = exampleEveningRow.tomorrow_remember ∧
        r'.whoop_data = exampleMorning.whoopData ∧
        r'.calendar_data = exampleMorning.calendarData ∧
        r'.recovery_score = (exampleMorning.whoopData.bind (fun w => w.recovery)).map (fun x => x.score) ∧
        r'.hrv = (exampleMorning.whoopData.bind (fun w => w.recovery)).map (fun x => x.hrvRmssd) ∧
        r'.resting_hr = (exampleMorning.whoopData.bind (fun w => w.recovery)).map (fun x => x.restingHeartRate) ∧
        r'.sleep_quality_minutes = (exampleMorning.whoopData.bind (fun w => w.sleep)).map (fun x => x.qualityDuration) ∧
        r'.sleep_efficiency = (exampleMorning.whoopData.bind (fun w => w.sleep)).map (fun x => x.efficiency) ∧
        r'.strain_score = (exampleMorning.whoopData.bind (fun w => w.strain)).map (fun x => x.score) ∧
        r'.energy_rating = some exampleMorning.energyRating ∧
        r'.mood = some exampleMorning.mood ∧
        r'.sleep_reflection = some exampleMorning.sleepReflection ∧
        r'.yesterday_win = some exampleMorning.yesterdayWin ∧
        r'.yesterday_challenge = some exampleMorning.yesterdayChallenge ∧
        r'.one_thing = some exampleMorning.oneThing ∧
        r'.movement_intention = some exampleMorning.movementIntention ∧
        r'.success_metric = some exampleMorning.successMetric ∧
        r'.patterns = exampleMorning.patterns ∧
        r'.dynamic_questions = exampleMorning.dynamicQuestions :=
  ⟨⟨by norm_num [exampleMorning], by norm_num [exampleMorning]⟩,
    List.mem_cons_self _ _, rfl, rfl, by decide,
    upsertMorning_overwrites_preserving_evening 7 exampleMorning
      [exampleEveningRow] exampleEveningRow
      ⟨by norm_num [exampleMorning], by norm_num [exampleMorning]⟩
      (List.mem_cons_self _ _) rfl rfl (by decide)⟩

-- ===========================================================================
-- C9: round-trip through the store
-- ===========================================================================

/-- The find? of an append when the first part finds nothing. -/
lemma find?_append_of_none {α : Type} (p : α → Bool) :
    ∀ (l₁ l₂ : List α), l₁.find? p = none → (l₁ ++ l₂).find? p = l₂.find? p := by
  intro l₁
  induction l₁ with
  | nil => intro l₂ _; rfl
  | cons x xs ih =>
    intro l₂ h
    by_cases hx : p x = true
    · rw [List.find?_cons_of_pos _ hx] at h
      exact absurd h (by simp)
    · rw [List.find?_cons_of_neg _ hx] at h
      rw [List.cons_append, List.find?_cons_of_neg _ hx]
      exact ih l₂ h

/-- If no row of the store matches the date, find? over it returns none. -/
lemma find?_date_none {s : Store} {d : Int}
    (h : ∀ r ∈ s, r.date ≠ d) : s.find? (fun r => r.date == d) = none := by
  rw [List.find?_eq_none]
  intro r hr
  simp [h r hr]

/-- Counterexample for C9: the caller timestamp (9) of the saved entry is not
what getDailyEntry reads back; the read entry carries the storage-generated
created_at (here 7), so the round-trip is not field-for-field equal. -/
theorem roundTrip_timestamp_counterexample :
    exampleMorning.timestamp = 9 ∧
    (saveMorningEntry 7 exampleMorning []).map
      (fun s' => (getDailyEntry s' exampleMorning.date).map (fun d => d.timestamp)) =
      some (some 7) ∧
    (9 : Int) ≠ 7 := by
  refine ⟨rfl, ?_, by decide⟩
  rfl

/-- C9 (amended): saving a morning entry into a store with no row for its
date and reading it back preserves every field except the timestamps - the
read-back timestamp is the storage-generated created_at - and in particular
preserves the nullability and the structural value of the whoopData and
calendarData snapshots; the evening write path likewise round-trips every
evening field except its timestamp, which reads back as updated_at. -/
theorem roundTrip_preserves_fields_except_timestamps
    (now now2 : Int) (e : MorningEntry) (s : Store) (ev : EveningEntry)
    (hE : 1 ≤ e.energyRating ∧ e.energyRating ≤ 10)
    (hfresh : ∀ r ∈ s, r.date ≠ e.date)
    (hev : ev.date = e.date) :
    ∃ s', saveMorningEntry now e s = some s' ∧
      (∃ d, getDailyEntry s' e.date = some d ∧
        d.date = e.date ∧ d.timestamp = now ∧
        d.whoopData = e.whoopData ∧ d.calendarData = e.calendarData ∧
        d.energyRating = e.energyRating ∧ d.mood = e.mood ∧
        d.sleepReflection = e.sleepReflection ∧ d.yesterdayWin = e.yesterdayWin ∧
        d.yesterdayChallenge = e.yesterdayChallenge ∧ d.oneThing = e.oneThing ∧
        d.movementIntention = e.movementIntention ∧ d.successMetric = e.successMetric ∧
        d.patterns = e.patterns ∧ d.dynamicQuestions = e.dynamicQuestions ∧
        d.evening = none) ∧
      (∃ d2, getDailyEntry (saveEveningEntry now2 ev s') e.date = some d2 ∧
        d2.date = e.date ∧ d2.timestamp = now ∧
        d2.whoopData = e.whoopData ∧ d2.calendarData = e.calendarData ∧
        d2.energyRating = e.energyRating ∧
        d2.evening = some
          { date := e.date
            timestamp := now2
            priorityCompleted := ev.priorityCompleted
            eveningReflection := ev.eveningReflection
            gratitude := ev.gratitude
            tomorrowRemember := ev.tomorrowRemember }) := by
  have hany : s.any (fun r => r.date == e.date) = false := by
    rw [List.any_eq_false]
    intro r hr
    simp [hfresh r hr]
  refine ⟨s ++ [newRowFromMorning now e], ?_, ?_, ?_⟩
  · unfold saveMorningEntry
    rw [if_pos hE, hany]
    simp
  · refine ⟨rowToDailyEntry (newRowFromMorning now e), ?_, ?_⟩
    · unfold getDailyEntry
      rw [find?_append_of_none _ s _ (find?_date_none hfresh),
        List.find?_cons_of_pos _ (by simp [newRowFromMorning])]
      rfl
    · exact ⟨rfl, rfl, rfl, rfl, rfl, rfl, rfl, rfl, rfl, rfl, rfl, rfl, rfl,
        rfl, rfl⟩
  · have hmapped : saveEveningEntry now2 ev (s ++ [newRowFromMorning now e]) =
        s ++ [{ newRowFromMorning now e with
          priority_completed := some ev.priorityCompleted
          evening_reflection := some ev.eveningReflection
          gratitude := some ev.gratitude
          tomorrow_remember := some ev.tomorrowRemember
          updated_at := now2 }] := by
      unfold saveEveningEntry
      rw [List.map_append]
      have hleft : s.map (fun r =>
          if r.date = ev.date then
            { r with
              priority_completed := some ev.priorityCompleted
              evening_reflection := some ev.eveningReflection
              gratitude := some ev.gratitude
              tomorrow_remember := some ev.tomorrowRemember
              updated_at := now2 }
          else r) = s := by
        have hcongr : ∀ r ∈ s, (if r.date = ev.date then
            { r with
              priority_completed := some ev.priorityCompleted
              evening_reflection := some ev.eveningReflection
              gratitude := some ev.gratitude
              tomorrow_remember := some ev.tomorrowRemember
              updated_at := now2 }
          else r) = r := by
          intro r hr
          rw [if_neg]
          rw [hev]
          exact hfresh r hr
        rw [List.map_congr_left hcongr]
        simp
      rw [hleft]
      have hdate : (newRowFromMorning now e).date = ev.date := by
        rw [hev]; rfl
      simp [hdate]
    rw [hmapped]
    refine ⟨rowToDailyEntry
      { newRowFromMorning now e with
        priority_completed := some ev.priorityCompleted
        evening_reflection := some ev.eveningReflection
        gratitude := some ev.gratitude
        tomorrow_remember := some ev.tomorrowRemember
        updated_at := now2 }, ?_, ?_⟩
    · unfold getDailyEntry
      rw [find?_append_of_none _ s _ (find?_date_none hfresh),
        List.find?_cons_of_pos _ (by simp [newRowFromMorning])]
      rfl
    · exact ⟨rfl, rfl, rfl, rfl, rfl, rfl⟩

/-- Witness for C9 (amended): the concrete morning entry saved into the empty
store at storage time 7, then extended at storage time 8. -/
theorem roundTrip_preserves_fields_except_timestamps_witness :
    (1 ≤ exampleMorning.energyRating ∧ exampleMorning.energyRating ≤ 10) ∧
    (∀ r ∈ ([] : Store), r.date ≠ exampleMorning.date) ∧
    (⟨3, 11, PriorityCompletion.partDone, "er", ["g"], "tr"⟩ : EveningEntry).date =
      exampleMorning.date ∧
    ∃ s', saveMorningEntry 7 exampleMorning [] = some s' ∧
      (∃ d, getDailyEntry s' exampleMorning.date = some d ∧
        d.date = exampleMorning.date ∧ d.timestamp = 7 ∧
        d.whoopData = exampleMorning.whoopData ∧
        d.calendarData = exampleMorning.calendarData ∧
        d.energyRating = exampleMorning.energyRating ∧ d.mood = exampleMorning.mood ∧
        d.sleepReflection = exampleMorning.sleepReflection ∧
        d.yesterdayWin = exampleMorning.yesterdayWin ∧
        d.yesterdayChallenge = exampleMorning.yesterdayChallenge ∧
        d.oneThing = exampleMorning.oneThing ∧
        d.movementIntention = exampleMorning.movementIntention ∧
        d.successMetric = exampleMorning.successMetric ∧
        d.patterns = exampleMorning.patterns ∧
        d.dynamicQuestions = exampleMorning.dynamicQuestions ∧
        d.evening = none) ∧
      (∃ d2, getDailyEntry
          (saveEveningEntry 8 ⟨3, 11, PriorityCompletion.partDone, "er", ["g"], "tr"⟩ s')
          exampleMorning.date = some d2 ∧
        d2.date = exampleMorning.date ∧ d2.timestamp = 7 ∧
        d2.whoopData = exampleMorning.whoopData ∧
        d2.calendarData = exampleMorning.calendarData ∧
        d2.energyRating = exampleMorning.energyRating ∧
        d2.evening = some
          { date := exampleMorning.date
            timestamp := 8
            priorityCompleted := PriorityCompletion.partDone
            eveningReflection := "er"
            gratitude := ["g"]
            tomorrowRemember := "tr" }) :=
  ⟨⟨by norm_num [exampleMorning], by norm_num [exampleMorning]⟩,
    (fun r hr => absurd hr (List.not_mem_nil r)), rfl,
    roundTrip_preserves_fields_except_timestamps 7 8 exampleMorning []
      ⟨3, 11, PriorityCompletion.partDone, "er", ["g"], "tr"⟩
      ⟨by norm_num [exampleMorning], by norm_num [exampleMorning]⟩
      (fun r hr => absurd hr (List.not_mem_nil r)) rfl⟩

-- ===========================================================================
-- Statistics engine (getHistoricalStats)
-- ===========================================================================

/-- SQL AVG over a list of column values: NULLs are ignored, and the result
is NULL when no non-null value exists. -/
def avgOpt (vals : List (Option ℚ)) : Option ℚ :=
  let xs := vals.reduceOption
  if xs.length = 0 then none else some (xs.sum / (xs.length : ℚ))

/-- Rows feeding the averages: WHERE date >= date(now, -days days) AND
recovery_score IS NOT NULL. -/
def qualifyingRows (today days : Int) (s : Store) : Store :=
  s.filter (fun r => decide (today - days ≤ r.date) && r.recovery_score.isSome)

/-- Rows feeding the trend query: WHERE date >= date(now, -7 days),
independent of the days argument. -/
def trendRows (today : Int) (s : Store) : Store :=
  s.filter (fun r => decide (today - 7 ≤ r.date))

/-- AVG(CASE WHEN date >= date(now, -3 days) THEN column END) over the
7-day trend window. -/
def recentAvg (today : Int) (s : Store) (f : Row → Option ℚ) : Option ℚ :=
  avgOpt ((trendRows today s).map (fun r => if today - 3 ≤ r.date then f r else none))

/-- AVG(CASE WHEN date < date(now, -3 days) THEN column END) over the
7-day trend window. -/
def olderAvg (today : Int) (s : Store) (f : Row → Option ℚ) : Option ℚ :=
  avgOpt ((trendRows today s).map (fun r => if r.date < today - 3 then f r else none))

/-- calculateTrend: stable when either bucket mean is NULL, else classify
((recent - older) / older) * 100 against the plus/minus 5 thresholds. The
source leaves the division unguarded against older = 0; in JS that division
yields plus infinity (recent positive, hence up), minus infinity (recent
negative, hence down) or NaN (recent zero; both comparisons fail, hence
stable), and the older = 0 branch here transcribes exactly those outcomes
into the rational model. -/
def calculateTrend (recent older : Option ℚ) : Trend :=
  match recent, older with
  | some re, some ol =>
    if ol = 0 then
      if 0 < re then Trend.up
      else if re < 0 then Trend.down
      else Trend.stable
    else
      if 5 < ((re - ol) / ol) * 100 then Trend.up
      else if ((re - ol) / ol) * 100 < -5 then Trend.down
      else Trend.stable
  | _, _ => Trend.stable

/-- getHistoricalStats: averages and daysTracked over the days-window rows
with non-null recovery; trends from the fixed 7-day window split at
date(now, -3 days); NULL aggregates coalesce to 0 via the ?? 0 fallbacks. -/
def getHistoricalStats (today days : Int) (s : Store) : HistoricalStats :=
  let sel := qualifyingRows today days s
  { avgRecovery := (avgOpt (sel.map (fun r => r.recovery_score))).getD 0
    avgHrv := (avgOpt (sel.map (fun r => r.hrv))).getD 0
    avgSleep := (avgOpt (sel.map (fun r => r.sleep_quality_minutes))).getD 0
    avgEnergy := (avgOpt (sel.map (fun r => r.energy_rating))).getD 0
    daysTracked := sel.length
    recoveryTrend := calculateTrend
      (recentAvg today s (fun r => r.recovery_score))
      (olderAvg today s (fun r => r.recovery_score))
    hrvTrend := calculateTrend
      (recentAvg today s (fun r => r.hrv))
      (olderAvg today s (fun r => r.hrv))
    sleepTrend := calculateTrend
      (recentAvg today s (fun r => r.sleep_quality_minutes))
      (olderAvg today s (fun r => r.sleep_quality_minutes)) }

/-- Recovery scores 80, 82, 81 on days -1..-3 and 60, 61, 59 on days
-4..-6 (within the days -4..-7 older bucket). -/
def trendExampleStore : Store :=
  [ { baseRow (-1) with recovery_score := some 80 },
    { baseRow (-2) with recovery_score := some 82 },
    { baseRow (-3) with recovery_score := some 81 },
    { baseRow (-4) with recovery_score := some 60 },
    { baseRow (-5) with recovery_score := some 61 },
    { baseRow (-6) with recovery_score := some 59 } ]

/-- C3: the three trends are computed over the fixed 7-day window
independently of the windowDays argument, as calculateTrend applied to the
recent (last 3 days) and older (days 4-7 back) bucket means; either bucket
mean being undefined gives stable; and the spec example of recovery scores
80, 82, 81 recent versus 60, 61, 59 older classifies as up. -/
theorem historicalStats_trend_fixed_seven_day_window
    (today d1 d2 : Int) (s : Store) (x : Option ℚ) :
    ((getHistoricalStats today d1 s).recoveryTrend =
        (getHistoricalStats today d2 s).recoveryTrend ∧
      (getHistoricalStats today d1 s).hrvTrend =
        (getHistoricalStats today d2 s).hrvTrend ∧
      (getHistoricalStats today d1 s).sleepTrend =
        (getHistoricalStats today d2 s).sleepTrend) ∧
    ((getHistoricalStats today d1 s).recoveryTrend = calculateTrend
        (recentAvg today s (fun r => r.recovery_score))
        (olderAvg today s (fun r => r.recovery_score)) ∧
      (getHistoricalStats today d1 s).hrvTrend = calculateTrend
        (recentAvg today s (fun r => r.hrv))
        (olderAvg today s (fun r => r.hrv)) ∧
      (getHistoricalStats today d1 s).sleepTrend = calculateTrend
        (recentAvg today s (fun r => r.sleep_quality_minutes))
        (olderAvg today s (fun r => r.sleep_quality_minutes))) ∧
    (calculateTrend none x = Trend.stable ∧ calculateTrend x none = Trend.stable) ∧
    (getHistoricalStats 0 7 trendExampleStore).recoveryTrend = Trend.up := by
  refine ⟨⟨rfl, rfl, rfl⟩, ⟨rfl, rfl, rfl⟩, ⟨?_, ?_⟩, ?_⟩
  · cases x <;> rfl
  · cases x <;> rfl
  · have h1 : recentAvg 0 trendExampleStore (fun r => r.recovery_score) = some 81 := by
      norm_num [recentAvg, trendRows, trendExampleStore, baseRow, avgOpt,
        List.reduceOption, List.filterMap, List.filter]
    have h2 : olderAvg 0 trendExampleStore (fun r => r.recovery_score) = some 60 := by
      norm_num [olderAvg, trendRows, trendExampleStore, baseRow, avgOpt,
        List.reduceOption, List.filterMap, List.filter]
    show calculateTrend
      (recentAvg 0 trendExampleStore (fun r => r.recovery_score))
      (olderAvg 0 trendExampleStore (fun r => r.recovery_score)) = Trend.up
    rw [h1, h2]
    norm_num [calculateTrend]

/-- Two rows with NULL recovery but non-null HRV: none qualifies for the
averages, yet they drive the HRV trend. -/
def c8Store : Store :=
  [ { baseRow (-1) with hrv := some 100 },
    { baseRow (-5) with hrv := some 50 } ]

/-- Counterexample for C8: a store whose window holds zero qualifying
entries (no non-null recovery score) on which getHistoricalStats still
reports hrvTrend = up, not stable, because the trend query has no
recovery-is-not-null filter. -/
theorem historicalStats_zero_qualifying_nonstable_trend :
    (getHistoricalStats 0 7 c8Store).daysTracked = 0 ∧
    (getHistoricalStats 0 7 c8Store).avgRecovery = 0 ∧
    (getHistoricalStats 0 7 c8Store).avgHrv = 0 ∧
    (getHistoricalStats 0 7 c8Store).avgSleep = 0 ∧
    (getHistoricalStats 0 7 c8Store).avgEnergy = 0 ∧
    (getHistoricalStats 0 7 c8Store).hrvTrend = Trend.up ∧
    Trend.up ≠ Trend.stable := by
  have h1 : recentAvg 0 c8Store (fun r => r.hrv) = some 100 := by
    norm_num [recentAvg, trendRows, c8Store, baseRow, avgOpt,
      List.reduceOption, List.filterMap, List.filter]
  have h2 : olderAvg 0 c8Store (fun r => r.hrv) = some 50 := by
    norm_num [olderAvg, trendRows, c8Store, baseRow, avgOpt,
      List.reduceOption, List.filterMap, List.filter]
  refine ⟨rfl, rfl, rfl, rfl, rfl, ?_, by decide⟩
  show calculateTrend
    (recentAvg 0 c8Store (fun r => r.hrv))
    (olderAvg 0 c8Store (fun r => r.hrv)) = Trend.up
  rw [h1, h2]
  norm_num [calculateTrend]

/-- C8 (amended): zero qualifying entries always give all-zero averages and
daysTracked = 0 with no division error; the three trends are moreover all
stable provided the store also has no rows at all in the fixed 7-day trend
window (in particular on an empty store). -/
theorem historicalStats_empty_zeroes_and_stable
    (today days : Int) (s : Store)
    (h1 : qualifyingRows today days s = [])
    (h2 : trendRows today s = []) :
    (getHistoricalStats today days s).avgRecovery = 0 ∧
    (getHistoricalStats today days s).avgHrv = 0 ∧
    (getHistoricalStats today days s).avgSleep = 0 ∧
    (getHistoricalStats today days s).avgEnergy = 0 ∧
    (getHistoricalStats today days s).daysTracked = 0 ∧
    (getHistoricalStats today days s).recoveryTrend = Trend.stable ∧
    (getHistoricalStats today days s).hrvTrend = Trend.stable ∧
    (getHistoricalStats today days s).sleepTrend = Trend.stable := by
  simp [getHistoricalStats, h1, h2, avgOpt, recentAvg, olderAvg, calculateTrend,
    List.reduceOption]

/-- Witness for C8 (amended): the empty store with the default 7-day window. -/
theorem historicalStats_empty_zeroes_and_stable_witness :
    qualifyingRows 0 7 ([] : Store) = [] ∧
    trendRows 0 ([] : Store) = [] ∧
    ((getHistoricalStats 0 7 ([] : Store)).avgRecovery = 0 ∧
      (getHistoricalStats 0 7 ([] : Store)).avgHrv = 0 ∧
      (getHistoricalStats 0 7 ([] : Store)).avgSleep = 0 ∧
      (getHistoricalStats 0 7 ([] : Store)).avgEnergy = 0 ∧
      (getHistoricalStats 0 7 ([] : Store)).daysTracked = 0 ∧
      (getHistoricalStats 0 7 ([] : Store)).recoveryTrend = Trend.stable ∧
      (getHistoricalStats 0 7 ([] : Store)).hrvTrend = Trend.stable ∧
      (getHistoricalStats 0 7 ([] : Store)).sleepTrend = Trend.stable) :=
  ⟨rfl, rfl, historicalStats_empty_zeroes_and_stable 0 7 [] rfl rfl⟩

/-- C10: the trend classifier is total - it always returns one of up, down,
stable - and on a zero older bucket mean it returns up for any positive
recent mean (the JS division gives plus infinity) and stable when both means
are zero (the JS division gives NaN, failing both threshold comparisons). -/
theorem calculateTrend_total_and_zero_denominator
    (recent older : Option ℚ) (re : ℚ) (hre : 0 < re) :
    (calculateTrend recent older = Trend.up ∨
      calculateTrend recent older = Trend.down ∨
      calculateTrend recent older = Trend.stable) ∧
    calculateTrend (some re) (some 0) = Trend.up ∧
    calculateTrend (some 0) (some 0) = Trend.stable := by
  refine ⟨?_, ?_, by decide⟩
  · cases recent with
    | none => cases older <;> exact Or.inr (Or.inr rfl)
    | some a =>
      cases older with
      | none => exact Or.inr (Or.inr rfl)
      | some b =>
        simp only [calculateTrend]
        split_ifs <;> simp
  · simp only [calculateTrend]
    simp [hre]

/-- Witness for C10: both means absent, and recent mean 1 over older mean 0. -/
theorem calculateTrend_total_and_zero_denominator_witness :
    (0 : ℚ) < 1 ∧
    ((calculateTrend none none = Trend.up ∨
       calculateTrend none none = Trend.down ∨
       calculateTrend none none = Trend.stable) ∧
     calculateTrend (some 1) (some 0) = Trend.up ∧
     calculateTrend (some 0) (some 0) = Trend.stable) :=
  ⟨by norm_num, calculateTrend_total_and_zero_denominator none none 1 (by norm_num)⟩

-- ===========================================================================
-- Habit store and habit aggregator (getHabitStats)
-- ===========================================================================

/-- Habit category. -/
inductive HabitCategory where
  | morning
  | evening
  | anytime
deriving DecidableEq

/-- A habit of the habits table. -/
structure Habit where
  id : Int
  name : String
  emoji : String
  category : HabitCategory
  active : Bool
deriving DecidableEq

/-- One row of the habit_logs table; (date, habit_id) is UNIQUE. -/
structure HabitLogRow where
  date : Int
  habit_id : Int
  completed : Bool
  notes : Option String
deriving DecidableEq

/-- SQL TEXT ordering of the category column (anytime < evening < morning
alphabetically). -/
def habitCategoryKey : HabitCategory → Nat
  | HabitCategory.anytime => 0
  | HabitCategory.evening => 1
  | HabitCategory.morning => 2

/-- ORDER BY h.category, h.name. -/
def habitOrder (a b : Habit) : Prop :=
  habitCategoryKey a.category < habitCategoryKey b.category ∨
    (habitCategoryKey a.category = habitCategoryKey b.category ∧ a.name ≤ b.name)

instance : DecidableRel habitOrder := fun a b => by
  unfold habitOrder
  infer_instance

/-- One element of the getHabitStats result. -/
structure HabitStat where
  habitName : String
  emoji : String
  completionRate : ℚ
  streak : Nat
deriving DecidableEq

/-- getHabitStats: LEFT JOIN of active habits with their logs restricted to
date >= date(now, -days days), GROUP BY habit; completed_count counts rows
with completed = 1, total_days counts DISTINCT log dates, and the rate is
(completed / days) * 100 when any day was logged, else 0. The streak field
is the hardcoded 0 of the source stub. -/
def getHabitStats (today days : Int) (habits : List Habit)
    (logs : List HabitLogRow) : List HabitStat :=
  ((habits.filter (fun h => h.active)).insertionSort habitOrder).map (fun h =>
    let joined := logs.filter
      (fun l => l.habit_id == h.id && decide (today - days ≤ l.date))
    let completedCount := (joined.filter (fun l => l.completed)).length
    let totalDays := ((joined.map (fun l => l.date)).dedup).length
    { habitName := h.name
      emoji := h.emoji
      completionRate :=
        if 0 < totalDays then ((completedCount : ℚ) / (days : ℚ)) * 100 else 0
      streak := 0 })

/-- An active morning habit. -/
def exampleHabit : Habit :=
  { id := 1, name := "Meditate", emoji := "m",
    category := HabitCategory.morning, active := true }

/-- The habit logged completed on five of the seven window days and untouched
on the other two. -/
def exampleHabitLogs : List HabitLogRow :=
  [ { date := -1, habit_id := 1, completed := true, notes := none },
    { date := -2, habit_id := 1, completed := true, notes := none },
    { date := -3, habit_id := 1, completed := true, notes := none },
    { date := -4, habit_id := 1, completed := true, notes := none },
    { date := -5, habit_id := 1, completed := true, notes := none } ]

/-- The number of distinct days inside the trailing window on which a habit
was logged completed (the claim-side count). -/
def completedDaysInWindow (today days habitId : Int) (logs : List HabitLogRow) : Nat :=
  (((logs.filter (fun l =>
    l.habit_id == habitId && decide (today - days ≤ l.date) && l.completed)).map
      (fun l => l.date)).dedup).length

/-- C4: for every active habit the reported completionRate is the number of
window days logged completed divided by windowDays (not by days logged)
times 100; in particular five completions out of a 7-day window give
(5 / 7) * 100, not 100. -/
theorem habitStats_rate_divides_by_window
    (today days : Int) (habits : List Habit) (logs : List HabitLogRow) (h : Habit)
    (hmem : h ∈ habits) (hact : h.active = true) (_hdays : 0 < days)
    (huniq : logs.Pairwise (fun a b => ¬(a.date = b.date ∧ a.habit_id = b.habit_id))) :
    ({ habitName := h.name
       emoji := h.emoji
       completionRate :=
         ((completedDaysInWindow today days h.id logs : ℚ) / (days : ℚ)) * 100
       streak := 0 } : HabitStat) ∈ getHabitStats today days habits logs ∧
    getHabitStats 0 7 [exampleHabit] exampleHabitLogs =
      [{ habitName := "Meditate", emoji := "m",
         completionRate := ((5 : ℚ) / 7) * 100, streak := 0 }] := by
  constructor
  · have hmemF : h ∈ habits.filter (fun h => h.active) :=
      List.mem_filter.mpr ⟨hmem, hact⟩
    have hmemS : h ∈ (habits.filter (fun h => h.active)).insertionSort habitOrder :=
      (List.perm_insertionSort habitOrder _).mem_iff.mpr hmemF
    have hstat := List.mem_map_of_mem (f := fun h : Habit =>
      let joined := logs.filter
        (fun l => l.habit_id == h.id && decide (today - days ≤ l.date))
      let completedCount := (joined.filter (fun l => l.completed)).length
      let totalDays := ((joined.map (fun l => l.date)).dedup).length
      ({ habitName := h.name
         emoji := h.emoji
         completionRate :=
           if 0 < totalDays then ((completedCount : ℚ) / (days : ℚ)) * 100 else 0
         streak := 0 } : HabitStat)) hmemS
    have hjoined : (logs.filter
        (fun l => l.habit_id == h.id && decide (today - days ≤ l.date))).filter
          (fun l => l.completed) =
        logs.filter (fun l =>
          l.habit_id == h.id && decide (today - days ≤ l.date) && l.completed) := by
      rw [List.filter_filter]
      have hpred : (fun a : HabitLogRow =>
          a.completed && (a.habit_id == h.id && decide (today - days ≤ a.date))) =
          (fun l : HabitLogRow =>
            l.habit_id == h.id && decide (today - days ≤ l.date) && l.completed) := by
        funext a
        rw [Bool.and_comm]
      rw [hpred]
    have hnodup : ((logs.filter (fun l =>
        l.habit_id == h.id && decide (today - days ≤ l.date) && l.completed)).map
          (fun l => l.date)).Nodup := by
      have hsub : (logs.filter (fun l =>
          l.habit_id == h.id && decide (today - days ≤ l.date) && l.completed)).Sublist
            logs := List.filter_sublist _
      have hpw := huniq.sublist hsub
      have hdates : (logs.filter (fun l =>
          l.habit_id == h.id && decide (today - days ≤ l.date) && l.completed)).Pairwise
            (fun a b => a.date ≠ b.date) := by
        refine List.Pairwise.imp_of_mem ?_ hpw
        intro a b ha hb hab hdate
        have hha : a.habit_id = h.id := by
          have := (List.mem_filter.mp ha).2
          simp at this
          exact this.1.1
        have hhb : b.habit_id = h.id := by
          have := (List.mem_filter.mp hb).2
          simp at this
          exact this.1.1
        exact hab ⟨hdate, hha.trans hhb.symm⟩
      unfold List.Nodup
      rw [List.pairwise_map]
      exact hdates
    have hcount : ((logs.filter
        (fun l => l.habit_id == h.id && decide (today - days ≤ l.date))).filter
          (fun l => l.completed)).length =
        completedDaysInWindow today days h.id logs := by
      rw [hjoined]
      unfold completedDaysInWindow
      rw [List.dedup_eq_self.mpr hnodup, List.length_map]
    have hrate : (if 0 < (((logs.filter
          (fun l => l.habit_id == h.id && decide (today - days ≤ l.date))).map
            (fun l => l.date)).dedup).length then
          ((((logs.filter (fun l =>
            l.habit_id == h.id && decide (today - days ≤ l.date))).filter
              (fun l => l.completed)).length : ℚ) / (days : ℚ)) * 100
        else 0) =
        ((completedDaysInWindow today days h.id logs : ℚ) / (days : ℚ)) * 100 := by
      by_cases htot : 0 < (((logs.filter
          (fun l => l.habit_id == h.id && decide (today - days ≤ l.date))).map
            (fun l => l.date)).dedup).length
      · rw [if_pos htot, hcount]
      · rw [if_neg htot]
        have hempty : (logs.filter
            (fun l => l.habit_id == h.id && decide (today - days ≤ l.date))) = [] := by
          by_contra hne
          rcases List.exists_mem_of_ne_nil _ hne with ⟨a, ha⟩
          exact htot (List.length_pos.mpr (fun hd => by
            have : a.date ∈ (((logs.filter (fun l =>
                l.habit_id == h.id && decide (today - days ≤ l.date))).map
                  (fun l => l.date)).dedup) :=
              List.mem_dedup.mpr (List.mem_map_of_mem _ ha)
            rw [hd] at this
            exact List.not_mem_nil _ this))
        have hzero : completedDaysInWindow today days h.id logs = 0 := by
          rw [← hcount, hempty]
          rfl
        rw [hzero]
        norm_num
    rw [← hrate]
    exact hstat
  · have hsort : ([exampleHabit].filter (fun h => h.active)).insertionSort habitOrder =
        [exampleHabit] := rfl
    simp only [getHabitStats, hsort, List.map_cons, List.map_nil]
    have hjlen : (((exampleHabitLogs.filter
        (fun l => l.habit_id == exampleHabit.id && decide ((0 : Int) - 7 ≤ l.date))).map
          (fun l => l.date)).dedup).length = 5 := by decide
    have hclen : ((exampleHabitLogs.filter
        (fun l => l.habit_id == exampleHabit.id && decide ((0 : Int) - 7 ≤ l.date))).filter
          (fun l => l.completed)).length = 5 := by decide
    simp only [hjlen, hclen]
    norm_num [exampleHabit]

/-- Witness for C4: the example habit and its five completions over the
default 7-day window. -/
theorem habitStats_rate_divides_by_window_witness :
    exampleHabit ∈ [exampleHabit] ∧ exampleHabit.active = true ∧ (0 : Int) < 7 ∧
    exampleHabitLogs.Pairwise (fun a b => ¬(a.date = b.date ∧ a.habit_id = b.habit_id)) ∧
    (({ habitName := exampleHabit.name
        emoji := exampleHabit.emoji
        completionRate :=
          ((completedDaysInWindow 0 7 exampleHabit.id exampleHabitLogs : ℚ) / ((7 : Int) : ℚ)) * 100
        streak := 0 } : HabitStat) ∈ getHabitStats 0 7 [exampleHabit] exampleHabitLogs ∧
      getHabitStats 0 7 [exampleHabit] exampleHabitLogs =
        [{ habitName := "Meditate", emoji := "m",
           completionRate := ((5 : ℚ) / 7) * 100, streak := 0 }]) :=
  ⟨List.mem_cons_self _ _, rfl, by norm_num, by decide,
    habitStats_rate_divides_by_window 0 7 [exampleHabit] exampleHabitLogs exampleHabit
      (List.mem_cons_self _ _) rfl (by norm_num) (by decide)⟩

-- ===========================================================================
-- Streak calculator (getCurrentStreak)
-- ===========================================================================

/-- ORDER BY date DESC as a relation on dates. -/
def descInt (a b : Int) : Prop := b ≤ a

instance : DecidableRel descInt := fun a b => inferInstanceAs (Decidable (b ≤ a))

instance : IsTotal Int descInt := ⟨fun a b => le_total b a⟩

instance : IsTrans Int descInt := ⟨fun _ _ _ hab hbc => le_trans hbc hab⟩

/-- SELECT DISTINCT date FROM daily_entries WHERE date <= date(now)
ORDER BY date DESC LIMIT 60. -/
def streakRows (today : Int) (s : Store) : List Int :=
  ((((s.map (fun r => r.date)).filter
    (fun d => decide (d ≤ today))).dedup).insertionSort descInt).take 60

/-- The backward walk of getCurrentStreak: at most fuel iterations; a hit
increments and steps back; a miss on the very first iteration (today) steps
back without incrementing; any later miss stops. -/
def streakWalk (hasEntry : Int → Bool) : Nat → Int → Nat → Bool → Nat
  | 0, _, streak, _ => streak
  | fuel + 1, checkDate, streak, isFirst =>
    if hasEntry checkDate then streakWalk hasEntry fuel (checkDate - 1) (streak + 1) false
    else if isFirst then streakWalk hasEntry fuel (checkDate - 1) streak false
    else streak

/-- getCurrentStreak: the 60-iteration walk backward from today over the
LIMIT-60 row set. -/
def getCurrentStreak (today : Int) (s : Store) : Nat :=
  streakWalk (fun d => decide (d ∈ streakRows today s)) 60 today 0 true

/-- The walk the spec describes: the same backward walk, but testing raw
existence of a DailyEntry in the store for the visited date. -/
def streakSpecWalk (today : Int) (s : Store) : Nat :=
  streakWalk (fun d => decide (∃ r ∈ s, r.date = d)) 60 today 0 true

/-- The walk only depends on the entry predicate at the visited dates
today, today - 1, ..., today - (fuel - 1). -/
lemma streakWalk_congr (f g : Int → Bool) :
    ∀ (fuel : Nat) (cd : Int) (st : Nat) (fi : Bool),
      (∀ k : Nat, k < fuel → f (cd - k) = g (cd - k)) →
      streakWalk f fuel cd st fi = streakWalk g fuel cd st fi := by
  intro fuel
  induction fuel with
  | zero => intro cd st fi _; rfl
  | succ n ih =>
    intro cd st fi h
    have h0 : f cd = g cd := by
      have := h 0 (Nat.succ_pos n)
      simpa using this
    have hrec : ∀ k : Nat, k < n → f (cd - 1 - k) = g (cd - 1 - k) := by
      intro k hk
      have hk1 := h (k + 1) (by omega)
      have harith : cd - ((k : Int) + 1) = cd - 1 - k := by ring
      rw [Int.natCast_add, Int.natCast_one] at hk1
      rwa [harith] at hk1
    simp only [streakWalk, h0]
    by_cases hgc : g cd = true
    · rw [if_pos hgc, if_pos hgc]
      exact ih _ _ _ hrec
    · rw [if_neg hgc, if_neg hgc]
      by_cases hfi : fi = true
      · rw [if_pos hfi, if_pos hfi]
        exact ih _ _ _ hrec
      · rw [if_neg hfi, if_neg hfi]

/-- The walk can only add fuel to the running count. -/
lemma streakWalk_le (f : Int → Bool) :
    ∀ (fuel : Nat) (cd : Int) (st : Nat) (fi : Bool),
      streakWalk f fuel cd st fi ≤ st + fuel := by
  intro fuel
  induction fuel with
  | zero => intro cd st fi; simp [streakWalk]
  | succ n ih =>
    intro cd st fi
    simp only [streakWalk]
    by_cases h1 : f cd = true
    · rw [if_pos h1]
      have := ih (cd - 1) (st + 1) false
      omega
    · rw [if_neg h1]
      by_cases h2 : fi = true
      · rw [if_pos h2]
        have := ih (cd - 1) st false
        omega
      · rw [if_neg h2]
        omega

/-- In a strictly descending list bounded by top, any member no smaller than
top - n lies within the first n + 1 positions. -/
lemma mem_take_of_sorted_desc :
    ∀ (l : List Int) (n : Nat) (top d : Int),
      l.Sorted descInt → l.Nodup → (∀ x ∈ l, x ≤ top) → d ∈ l →
      top - (n : Int) ≤ d → d ∈ l.take (n + 1) := by
  intro l
  induction l with
  | nil => intro n top d _ _ _ hd _; cases hd
  | cons x xs ih =>
    intro n top d hs hn hb hd hlow
    rcases List.mem_cons.mp hd with h1 | h2
    · rw [List.take_succ_cons, h1]
      exact List.mem_cons_self _ _
    · have hsx : ∀ y ∈ xs, y ≤ x := fun y hy => (List.sorted_cons.mp hs).1 y hy
      have hxs_s : xs.Sorted descInt := (List.sorted_cons.mp hs).2
      have hxnot : x ∉ xs := (List.nodup_cons.mp hn).1
      have hxs_n : xs.Nodup := (List.nodup_cons.mp hn).2
      have hdx : d ≤ x - 1 := by
        have ha : d ≤ x := hsx d h2
        have hb' : d ≠ x := fun he => hxnot (he ▸ h2)
        omega
      have hbx : ∀ y ∈ xs, y ≤ x - 1 := by
        intro y hy
        have ha : y ≤ x := hsx y hy
        have hb' : y ≠ x := fun he => hxnot (he ▸ hy)
        omega
      have hxtop : x ≤ top := hb x (List.mem_cons_self x xs)
      cases n with
      | zero =>
        exfalso
        push_cast at hlow
        omega
      | succ m =>
        have hlow' : (x - 1) - (m : Int) ≤ d := by
          push_cast at hlow ⊢
          omega
        have hmem := ih m (x - 1) d hxs_s hxs_n hbx h2 hlow'
        rw [List.take_succ_cons]
        exact List.mem_cons_of_mem x hmem

/-- For dates within 59 days of today, membership in the LIMIT-60 row set
coincides with raw existence of an entry: fewer than 60 distinct store dates
can lie strictly between such a date and today. -/
lemma mem_streakRows_iff (today : Int) (s : Store) (k : Nat) (hk : k < 60) :
    ((today - (k : Int)) ∈ streakRows today s) ↔ ∃ r ∈ s, r.date = today - (k : Int) := by
  unfold streakRows
  constructor
  · intro hmem
    have h1 := List.take_subset _ _ hmem
    have h2 := (List.perm_insertionSort descInt _).mem_iff.mp h1
    have h3 := List.mem_dedup.mp h2
    have h4 := List.mem_filter.mp h3
    rcases List.mem_map.mp h4.1 with ⟨r, hr, hrd⟩
    exact ⟨r, hr, hrd⟩
  · rintro ⟨r, hr, hrd⟩
    have hd_le : today - (k : Int) ≤ today := by omega
    have h1 : (today - (k : Int)) ∈ s.map (fun r => r.date) :=
      List.mem_map.mpr ⟨r, hr, hrd⟩
    have h2 : (today - (k : Int)) ∈
        (s.map (fun r => r.date)).filter (fun d => decide (d ≤ today)) :=
      List.mem_filter.mpr ⟨h1, by simp [hd_le]⟩
    have h3 := List.mem_dedup.mpr h2
    have hperm := List.perm_insertionSort descInt
      (((s.map (fun r => r.date)).filter (fun d => decide (d ≤ today))).dedup)
    have hsorted := List.sorted_insertionSort descInt
      (((s.map (fun r => r.date)).filter (fun d => decide (d ≤ today))).dedup)
    have hnodup := hperm.nodup_iff.mpr (List.nodup_dedup _)
    have hmem_s := hperm.mem_iff.mpr h3
    have hbound : ∀ x ∈ (((s.map (fun r => r.date)).filter
        (fun d => decide (d ≤ today))).dedup).insertionSort descInt, x ≤ today := by
      intro x hx
      have hx2 := List.mem_filter.mp (List.mem_dedup.mp (hperm.mem_iff.mp hx))
      simpa using hx2.2
    have h59 : today - ((59 : Nat) : Int) ≤ today - (k : Int) := by
      push_cast
      omega
    have := mem_take_of_sorted_desc _ 59 today (today - (k : Int))
      hsorted hnodup hbound hmem_s h59
    simpa using this

/-- Entries for exactly yesterday and the day before, none for today. -/
def streakExampleStore : Store := [baseRow (-1), baseRow (-2)]

/-- C5: getCurrentStreak equals the spec walk - backward from today, one day
at a time over raw entry existence, counting hits, stopping at the first gap
except that a missing today only skips - so the LIMIT-60 prefilter never
changes the outcome; the walk is capped by the 60-iteration bound; and a
store with entries for exactly yesterday and the day before yields 2. -/
theorem currentStreak_backward_walk_with_today_grace (today : Int) (s : Store) :
    getCurrentStreak today s = streakSpecWalk today s ∧
    getCurrentStreak today s ≤ 60 ∧
    getCurrentStreak 0 streakExampleStore = 2 := by
  refine ⟨?_, ?_, ?_⟩
  · unfold getCurrentStreak streakSpecWalk
    apply streakWalk_congr
    intro k hk
    exact decide_eq_decide.mpr (mem_streakRows_iff today s k hk)
  · have := streakWalk_le (fun d => decide (d ∈ streakRows today s)) 60 today 0 true
    simpa [getCurrentStreak] using this
  · decide

-- ===========================================================================
-- Free-block interval engine (calculateLongestFreeBlock)
-- ===========================================================================

/-- The busy-period sort comparator (a, b) => a.start - b.start. -/
def startLe (a b : Int × Int) : Prop := a.1 ≤ b.1

instance : DecidableRel startLe := fun a b => inferInstanceAs (Decidable (a.1 ≤ b.1))

/-- calculateLongestFreeBlock: work window 09:00-18:00 in minutes; zero
events return the whole window; otherwise sweep the start-sorted busy
periods, counting the gap before any period starting after the cursor,
advancing the cursor to max(cursor, end), and finally counting the trailing
gap to the window end. -/
def calculateLongestFreeBlock (events : List CalendarEvent) : Int :=
  let workStart : Int := 9 * 60
  let workEnd : Int := 18 * 60
  if events.length = 0 then workEnd - workStart
  else
    let busyPeriods := (events.map (fun e => (e.startTime, e.endTime))).insertionSort startLe
    let swept := busyPeriods.foldl
      (fun (acc : Int × Int) busy =>
        (if busy.1 > acc.2 then max acc.1 (busy.1 - acc.2) else acc.1, max acc.2 busy.2))
      (0, workStart)
    if swept.2 < workEnd then max swept.1 (workEnd - swept.2) else swept.1

/-- The sweep exactly as the spec words it, with no zero-event special case:
cursor starts at the window start, each event in start order contributes the
gap event.start - cursor when positive, the cursor advances to
max(cursor, event.end), and the trailing gap to the window end is counted. -/
def freeBlockSweepSpec (events : List CalendarEvent) : Int :=
  let windowStart : Int := 9 * 60
  let windowEnd : Int := 18 * 60
  let busy := (events.map (fun e => (e.startTime, e.endTime))).insertionSort startLe
  let swept := busy.foldl
    (fun (acc : Int × Int) ev =>
      (if ev.1 > acc.2 then max acc.1 (ev.1 - acc.2) else acc.1, max acc.2 ev.2))
    (0, windowStart)
  if swept.2 < windowEnd then max swept.1 (windowEnd - swept.2) else swept.1

/-- A 10:00-11:00 meeting. -/
def exampleEventA : CalendarEvent :=
  { id := "1", title := "standup", startTime := 600, endTime := 660,
    duration := 60, type := EventType.meeting, location := none, description := none }

/-- A 14:00-14:30 meeting. -/
def exampleEventB : CalendarEvent :=
  { id := "2", title := "sync", startTime := 840, endTime := 870,
    duration := 30, type := EventType.meeting, location := none, description := none }

/-- C6: for every event list - overlapping or nested included - the
computation equals the cursor sweep from 09:00 as the spec words it; zero
events yield the full 540-minute window; and the 10:00-11:00 plus
14:00-14:30 example yields 210 minutes. -/
theorem longestFreeBlock_is_cursor_sweep (events : List CalendarEvent) :
    calculateLongestFreeBlock events = freeBlockSweepSpec events ∧
    calculateLongestFreeBlock [] = 540 ∧
    calculateLongestFreeBlock [exampleEventA, exampleEventB] = 210 := by
  refine ⟨?_, by decide, by decide⟩
  cases events with
  | nil => decide
  | cons a l => rfl

-- ===========================================================================
-- Recent entries (getRecentEntries)
-- ===========================================================================

/-- ORDER BY date DESC on rows. -/
def rowDateDesc (a b : Row) : Prop := b.date ≤ a.date

instance : DecidableRel rowDateDesc := fun a b =>
  inferInstanceAs (Decidable (b.date ≤ a.date))

instance : IsTotal Row rowDateDesc := ⟨fun a b => le_total b.date a.date⟩

instance : IsTrans Row rowDateDesc := ⟨fun _ _ _ h1 h2 => le_trans h2 h1⟩

/-- getRecentEntries: SELECT * FROM daily_entries WHERE date >=
date(now, -days days) ORDER BY date DESC, converted row by row. -/
def getRecentEntries (today days : Int) (s : Store) : List DailyEntry :=
  ((s.filter (fun r => decide (today - days ≤ r.date))).insertionSort
    rowDateDesc).map rowToDailyEntry

/-- A store with entries dated tomorrow and seven days ago (today = 0). -/
def c7Store : Store := [baseRow 1, baseRow (-7)]

/-- Counterexample for C7: getRecentEntries 0 7 returns the entry dated 1
(after today, outside any trailing window ending today) and the entry dated
-7 (earlier than the 7-day window ending today, which spans days -6..0). -/
theorem getRecent_returns_out_of_window_dates :
    (getRecentEntries 0 7 c7Store).map (fun d => d.date) = [1, -7] ∧
    (0 : Int) < 1 ∧ (-7 : Int) < 0 - 6 := by
  refine ⟨by decide, by decide, by decide⟩

/-- C7 (amended): getRecentEntries returns exactly the stored entries with
date >= today - nDays - the query has no upper bound, so entries dated after
today are returned too, and the lower bound day today - nDays itself is
included - ordered most-recent-first by date, and never an entry dated
before today - nDays. -/
theorem getRecent_exactly_lower_bounded_desc (today days : Int) (s : Store) :
    (getRecentEntries today days s).Perm
      ((s.filter (fun r => decide (today - days ≤ r.date))).map rowToDailyEntry) ∧
    ((getRecentEntries today days s).map (fun d => d.date)).Sorted (fun a b => b ≤ a) ∧
    (∀ d ∈ getRecentEntries today days s, today - days ≤ d.date) := by
  refine ⟨?_, ?_, ?_⟩
  · exact (List.perm_insertionSort rowDateDesc _).map rowToDailyEntry
  · have hsorted := List.sorted_insertionSort rowDateDesc
      (s.filter (fun r => decide (today - days ≤ r.date)))
    unfold getRecentEntries
    rw [List.map_map]
    exact List.Pairwise.map _ (fun a b hab => hab) hsorted
  · intro d hd
    unfold getRecentEntries at hd
    rcases List.mem_map.mp hd with ⟨r, hr, hrd⟩
    have hr2 := (List.perm_insertionSort rowDateDesc _).mem_iff.mp hr
    have hr3 := List.mem_filter.mp hr2
    have hle : today - days ≤ r.date := by simpa using hr3.2
    rw [← hrd]
    exact hle
